import Mathlib

/-!
Shallow embedding of the Soffer escrow-backed offer/swap engine
(`src/src/lib.rs`).  Public keys are modelled as `Nat`, lamport and token
amounts as `Nat`, and the Unix timestamp as `Int`.  Each processor function
is translated from the corresponding `process_*` function of the source,
with the external Solana runtime calls (`invoke`, `invoke_signed`) turned
into explicit `Effect` values and each `serialize` into an explicit record
write, so that an operation's outcome is the ordered list of transfers it
issued plus the ordered list of offer records it persisted.  Straight-line
blocks of the source are factored into named step functions; the checks,
their order, and their error codes are exactly those of the source.
-/

namespace Soffer

inductive SwapError where
  | InvalidInstruction
  | NotRentExempt
  | InvalidAccountData
  | IncorrectOwner
  | InsufficientFunds
  | InvalidOfferStatus
  | OfferExpired
  | Unauthorized
  | OfferMismatch
  | TokenMismatch
  | AccountNotInitialized
  | InvalidProgramAddress
  | MissingRequiredAccount
  | InvalidAccountInput
  | InvalidSystemProgram
  | InvalidTokenProgram
  deriving DecidableEq, Repr

inductive ProgramError where
  | Custom (e : SwapError)
  | MissingRequiredSignature
  | UninitializedAccount
  | BorshIoError
  | NotEnoughAccountKeys
  deriving DecidableEq, Repr

inductive OfferType where
  | Direct
  | PublicBuy
  | PublicSell
  deriving DecidableEq, Repr

inductive OfferStatus where
  | Active
  | Accepted
  | Declined
  | Countered
  | Expired
  deriving DecidableEq, Repr

structure Offer where
  offer_type : OfferType
  status : OfferStatus
  maker : Nat
  taker : Option Nat
  offer_token_mint : Nat
  offer_token_amount : Nat
  receive_token_mint : Nat
  receive_token_amount : Nat
  escrow_sol_amount : Nat
  expiration : Option Int
  is_counter_offer : Bool
  original_offer_id : Option Nat
  bump_seed : Nat
  deriving DecidableEq, Repr

/-- `Offer::MAX_LEN` from the source: worst-case borsh size of a record. -/
def offerMaxLen : Nat :=
  1 + 1 + 32 + (1 + 32) + 32 + 8 + 32 + 8 + 8 + (1 + 8) + 1 + (1 + 32) + 1

/-- An SPL token account as the program reads it (`spl_token::state::Account`). -/
structure TokenAccount where
  mint : Nat
  owner : Nat
  amount : Nat
  deriving DecidableEq, Repr

/-- An SPL mint as the program reads it (`spl_token::state::Mint`). -/
structure MintData where
  decimals : Nat
  deriving DecidableEq, Repr

/-- The byte content of an account, at the granularity the program inspects it. -/
inductive AcctData where
  | empty
  | zeroed
  | offerRec (o : Offer)
  | tokenAcct (t : TokenAccount)
  | mintAcct (m : MintData)
  | other
  deriving DecidableEq, Repr

structure AccountInfo where
  key : Nat
  is_signer : Bool
  is_writable : Bool
  lamports : Nat
  owner : Nat
  data : AcctData
  deriving DecidableEq, Repr

/-- `data_len() == 0` in the source corresponds to `AcctData.empty`. -/
def dataLenZero (a : AccountInfo) : Bool :=
  match a.data with
  | AcctData.empty => true
  | _ => false

/-- `AccountInfo::data_is_empty`: every byte of the data is zero. -/
def dataIsEmpty (a : AccountInfo) : Bool :=
  match a.data with
  | AcctData.empty => true
  | AcctData.zeroed => true
  | _ => false

/-- `spl_token::state::Account::unpack`. -/
def unpack_token_account (a : AccountInfo) : Except ProgramError TokenAccount :=
  match a.data with
  | AcctData.tokenAcct t => Except.ok t
  | _ => Except.error ProgramError.UninitializedAccount

/-- `spl_token::state::Mint::unpack`. -/
def unpack_mint (a : AccountInfo) : Except ProgramError MintData :=
  match a.data with
  | AcctData.mintAcct m => Except.ok m
  | _ => Except.error ProgramError.UninitializedAccount

/-- `Offer::try_from_slice` on the account's data. -/
def offer_try_from_slice (a : AccountInfo) : Except ProgramError Offer :=
  match a.data with
  | AcctData.offerRec o => Except.ok o
  | _ => Except.error ProgramError.BorshIoError

/-- `solana_program::system_program::ID`, as an abstract key. -/
def systemProgramId : Nat := 901

/-- `spl_token::id()`, as an abstract key. -/
def splTokenProgramId : Nat := 902

/-- The reserved all-zero mint key `Pubkey::new_from_array([0; 32])` used by
the source as the native-currency sentinel. -/
def nativeMintSentinel : Nat := 0

/-- Stands for the constant seed byte string `b"offer"`. -/
def offerTag : Nat := 111

/-- The seed tuple `[b"offer", maker, offer_token_mint, receive_token_mint, [bump]]`. -/
def offerSeeds (maker offerMint receiveMint bump : Nat) : List Nat :=
  [offerTag, maker, offerMint, receiveMint, bump]

/-- The type of the external `Pubkey::find_program_address` collaborator:
from a seed list and a program id to a derived address and canonical bump. -/
def FpaFn : Type := List Nat → Nat → Nat × Nat

/-- Injective encoding of a seed list into a single natural number. -/
def encodeSeeds : List Nat → Nat
  | [] => 0
  | x :: xs => Nat.pair x (encodeSeeds xs) + 1

/-- Modelled from the spec: the Deterministic Address Deriver (spec section 4.1,
implemented in the source by the external `Pubkey::find_program_address`,
whose code is not part of this repository).  It is a pure function from the
seed tuple and program id to a unique address together with a canonical
salt, so that any two parties can independently recompute an offer's
address and distinct seed tuples never collide. -/
def findProgramAddress (seeds : List Nat) (programId : Nat) : Nat × Nat :=
  let addr := Nat.pair programId (encodeSeeds seeds)
  (addr, addr % 256)

/-- A call the program hands to the runtime: account creation, a native
(SOL) transfer, or an SPL token transfer.  `pdaSigned` records whether the
program authorized the call with the offer's derived seeds
(`invoke_signed`) rather than an external signature. -/
inductive Effect where
  | createAccount (payer newAcct lamports space owner : Nat)
  | solTransfer (source dest amount : Nat) (pdaSigned : Bool)
  | splTransfer (sourceTok mint destTok authority amount decimals : Nat) (pdaSigned : Bool)
  deriving DecidableEq, Repr

/-- Outcome of one processor run: on success and on failure alike it carries
the transfers issued and the offer records serialized before the end of the
run, in order. -/
inductive OpOutcome where
  | ok (effects : List Effect) (writes : List (Nat × Offer))
  | err (e : ProgramError) (effects : List Effect) (writes : List (Nat × Offer))
  deriving DecidableEq, Repr

/-- `Processor::transfer_sol`. -/
def transfer_sol (source dest sysProg : AccountInfo) (amount : Nat) (pdaSigned : Bool) :
    Except ProgramError Effect :=
  if !source.is_writable then Except.error (ProgramError.Custom SwapError.InvalidAccountInput)
  else if !dest.is_writable then Except.error (ProgramError.Custom SwapError.InvalidAccountInput)
  else if sysProg.key ≠ systemProgramId then
    Except.error (ProgramError.Custom SwapError.InvalidSystemProgram)
  else if source.lamports < amount then
    Except.error (ProgramError.Custom SwapError.InsufficientFunds)
  else Except.ok (Effect.solTransfer source.key dest.key amount pdaSigned)

/-- `Processor::transfer_spl_token`. -/
def transfer_spl_token (sourceTok mintAcct destTok fromAuthority tokProg : AccountInfo)
    (amount decimals : Nat) (pdaSigned : Bool) : Except ProgramError Effect :=
  if !sourceTok.is_writable then Except.error (ProgramError.Custom SwapError.InvalidAccountInput)
  else if !destTok.is_writable then Except.error (ProgramError.Custom SwapError.InvalidAccountInput)
  else if tokProg.key ≠ splTokenProgramId then
    Except.error (ProgramError.Custom SwapError.InvalidTokenProgram)
  else if !pdaSigned && !fromAuthority.is_signer then
    Except.error ProgramError.MissingRequiredSignature
  else
    Except.ok (Effect.splTransfer sourceTok.key mintAcct.key destTok.key fromAuthority.key
      amount decimals pdaSigned)

/-- Step 3 of `process_create_offer` (also step 4 of `process_counter_offer`):
create the offer storage if its data length is zero, otherwise require it to
be program-owned and empty. -/
def alloc_offer_storage (payer target : AccountInfo) (programId rentLamports : Nat) :
    Except ProgramError (List Effect) :=
  if dataLenZero target then
    Except.ok [Effect.createAccount payer.key target.key rentLamports offerMaxLen programId]
  else if target.owner ≠ programId ∨ dataIsEmpty target = false then
    Except.error (ProgramError.Custom SwapError.InvalidAccountData)
  else Except.ok []

/-- The escrow/funds step of `process_create_offer`: when the maker's
offered side is native currency, move the offered amount into the offer's
escrow; otherwise require sufficient token balance.  Returns the performed
transfers and the recorded `escrow_sol_amount`. -/
def create_escrow_step (offer_type : OfferType) (offer_token_amount : Nat)
    (maker_account offer_account offer_token_mint system_program : AccountInfo)
    (maker_sol_account_opt : Option AccountInfo) (makerTok : TokenAccount) :
    Except ProgramError (List Effect × Nat) :=
  if offer_type = OfferType.PublicBuy ∨
      (offer_type = OfferType.Direct ∧ offer_token_mint.key = nativeMintSentinel) then
    match maker_sol_account_opt with
    | none => Except.error (ProgramError.Custom SwapError.MissingRequiredAccount)
    | some maker_sol =>
      if maker_sol.key ≠ maker_account.key then
        Except.error (ProgramError.Custom SwapError.IncorrectOwner)
      else
        match transfer_sol maker_sol offer_account system_program offer_token_amount false with
        | Except.error e => Except.error e
        | Except.ok t => Except.ok ([t], offer_token_amount)
  else
    if offer_token_amount > makerTok.amount then
      Except.error (ProgramError.Custom SwapError.InsufficientFunds)
    else Except.ok ([], 0)

/-- `Processor::process_create_offer`.  `rentLamports` stands for
`Rent::minimum_balance(Offer::MAX_LEN)` read from the rent sysvar. -/
def process_create_offer (fpa : FpaFn) (programId rentLamports : Nat)
    (accounts : List AccountInfo) (offer_type : OfferType)
    (offer_token_amount receive_token_amount : Nat) (expiration : Option Int)
    (bump_seed : Nat) : OpOutcome :=
  match accounts with
  | maker_account :: offer_account :: maker_token_account :: offer_token_mint ::
      receive_token_mint :: system_program :: _token_program :: _rent_sysvar :: rest =>
    let maker_sol_account_opt := rest.head?
    let taker_account_opt := (rest.drop 1).head?
    if !maker_account.is_signer then OpOutcome.err ProgramError.MissingRequiredSignature [] []
    else
      let derived := fpa (offerSeeds maker_account.key offer_token_mint.key
        receive_token_mint.key bump_seed) programId
      if derived.1 ≠ offer_account.key ∨ derived.2 ≠ bump_seed then
        OpOutcome.err (ProgramError.Custom SwapError.InvalidProgramAddress) [] []
      else
        match alloc_offer_storage maker_account offer_account programId rentLamports with
        | Except.error e => OpOutcome.err e [] []
        | Except.ok efs0 =>
          match unpack_token_account maker_token_account with
          | Except.error e => OpOutcome.err e efs0 []
          | Except.ok makerTok =>
            if makerTok.owner ≠ maker_account.key then
              OpOutcome.err (ProgramError.Custom SwapError.IncorrectOwner) efs0 []
            else if makerTok.mint ≠ offer_token_mint.key then
              OpOutcome.err (ProgramError.Custom SwapError.TokenMismatch) efs0 []
            else
              let takerStep : Except ProgramError (Option Nat) :=
                if offer_type = OfferType.Direct then
                  match taker_account_opt with
                  | none => Except.error (ProgramError.Custom SwapError.MissingRequiredAccount)
                  | some ta => Except.ok (some ta.key)
                else Except.ok none
              match takerStep with
              | Except.error e => OpOutcome.err e efs0 []
              | Except.ok taker_pubkey =>
                match create_escrow_step offer_type offer_token_amount maker_account
                    offer_account offer_token_mint system_program maker_sol_account_opt
                    makerTok with
                | Except.error e => OpOutcome.err e efs0 []
                | Except.ok (efs1, escrow_sol) =>
                  OpOutcome.ok (efs0 ++ efs1)
                    [(offer_account.key,
                      { offer_type := offer_type
                        status := OfferStatus.Active
                        maker := maker_account.key
                        taker := taker_pubkey
                        offer_token_mint := offer_token_mint.key
                        offer_token_amount := offer_token_amount
                        receive_token_mint := receive_token_mint.key
                        receive_token_amount := receive_token_amount
                        escrow_sol_amount := escrow_sol
                        expiration := expiration
                        is_counter_offer := false
                        original_offer_id := none
                        bump_seed := bump_seed })]
  | _ => OpOutcome.err ProgramError.NotEnoughAccountKeys [] []

/-- The expiration test of `process_accept_offer`: there is an expiration
and the current time exceeds it. -/
def pastExpiration (expiration : Option Int) (now : Int) : Bool :=
  match expiration with
  | some exp => now > exp
  | none => false

/-- The settlement block of `process_accept_offer` (source "Perform the
Swap!"), entered once every status, authorization, ownership and identity
check has passed. -/
def accept_settle (offer_data : Offer)
    (taker_account offer_account maker_account maker_token_account
      taker_token_account offer_token_mint receive_token_mint
      system_program token_program : AccountInfo)
    (maker_sol_account_opt taker_sol_account_opt : Option AccountInfo)
    (makerTok takerTok : TokenAccount) : OpOutcome :=
  if offer_data.escrow_sol_amount > 0 then
    if makerTok.mint ≠ receive_token_mint.key then
      OpOutcome.err (ProgramError.Custom SwapError.TokenMismatch) [] []
    else if takerTok.mint ≠ offer_token_mint.key then
      OpOutcome.err (ProgramError.Custom SwapError.TokenMismatch) [] []
    else
      match maker_sol_account_opt with
      | none => OpOutcome.err (ProgramError.Custom SwapError.MissingRequiredAccount) [] []
      | some maker_sol =>
        if maker_sol.key ≠ maker_account.key then
          OpOutcome.err (ProgramError.Custom SwapError.IncorrectOwner) [] []
        else
          match transfer_sol offer_account maker_sol system_program
              offer_data.escrow_sol_amount true with
          | Except.error e => OpOutcome.err e [] []
          | Except.ok t1 =>
            match unpack_mint receive_token_mint with
            | Except.error e => OpOutcome.err e [t1] []
            | Except.ok mintInfo =>
              match transfer_spl_token taker_token_account receive_token_mint
                  maker_token_account taker_account token_program
                  offer_data.receive_token_amount mintInfo.decimals false with
              | Except.error e => OpOutcome.err e [t1] []
              | Except.ok t2 =>
                OpOutcome.ok [t1, t2]
                  [(offer_account.key, { offer_data with status := OfferStatus.Accepted })]
  else
    if makerTok.mint ≠ offer_token_mint.key then
      OpOutcome.err (ProgramError.Custom SwapError.TokenMismatch) [] []
    else if takerTok.mint ≠ receive_token_mint.key then
      OpOutcome.err (ProgramError.Custom SwapError.TokenMismatch) [] []
    else
      match unpack_mint offer_token_mint with
      | Except.error e => OpOutcome.err e [] []
      | Except.ok mintInfo =>
        match transfer_spl_token maker_token_account offer_token_mint
            taker_token_account maker_account token_program
            offer_data.offer_token_amount mintInfo.decimals false with
        | Except.error e => OpOutcome.err e [] []
        | Except.ok t1 =>
          match taker_sol_account_opt, maker_sol_account_opt with
          | none, _ =>
            OpOutcome.err (ProgramError.Custom SwapError.MissingRequiredAccount) [t1] []
          | some _, none =>
            OpOutcome.err (ProgramError.Custom SwapError.MissingRequiredAccount) [t1] []
          | some taker_sol, some maker_sol =>
            if taker_sol.key ≠ taker_account.key ∨ maker_sol.key ≠ maker_account.key then
              OpOutcome.err (ProgramError.Custom SwapError.IncorrectOwner) [t1] []
            else
              match transfer_sol taker_sol maker_sol system_program
                  offer_data.receive_token_amount false with
              | Except.error e => OpOutcome.err e [t1] []
              | Except.ok t2 =>
                OpOutcome.ok [t1, t2]
                  [(offer_account.key, { offer_data with status := OfferStatus.Accepted })]

/-- `Processor::process_accept_offer`.  `now` stands for
`Clock::get()?.unix_timestamp`. -/
def process_accept_offer (fpa : FpaFn) (programId : Nat) (now : Int)
    (accounts : List AccountInfo) : OpOutcome :=
  match accounts with
  | taker_account :: offer_account :: maker_account :: maker_token_account ::
      taker_token_account :: offer_token_mint :: receive_token_mint ::
      system_program :: token_program :: rest =>
    let maker_sol_account_opt := rest.head?
    let taker_sol_account_opt := (rest.drop 1).head?
    if !taker_account.is_signer then OpOutcome.err ProgramError.MissingRequiredSignature [] []
    else if offer_account.owner ≠ programId then
      OpOutcome.err (ProgramError.Custom SwapError.IncorrectOwner) [] []
    else
      match offer_try_from_slice offer_account with
      | Except.error e => OpOutcome.err e [] []
      | Except.ok offer_data =>
        let seeds := offerSeeds offer_data.maker offer_data.offer_token_mint
          offer_data.receive_token_mint offer_data.bump_seed
        if (fpa seeds programId).1 ≠ offer_account.key then
          OpOutcome.err (ProgramError.Custom SwapError.InvalidProgramAddress) [] []
        else if offer_data.status ≠ OfferStatus.Active then
          OpOutcome.err (ProgramError.Custom SwapError.InvalidOfferStatus) [] []
        else if pastExpiration offer_data.expiration now then
          OpOutcome.err (ProgramError.Custom SwapError.OfferExpired) []
            [(offer_account.key, { offer_data with status := OfferStatus.Expired })]
        else if offer_data.offer_type = OfferType.Direct ∧
            offer_data.taker ≠ some taker_account.key then
          OpOutcome.err (ProgramError.Custom SwapError.Unauthorized) [] []
        else if offer_data.maker ≠ maker_account.key then
          OpOutcome.err (ProgramError.Custom SwapError.OfferMismatch) [] []
        else
          match unpack_token_account maker_token_account,
              unpack_token_account taker_token_account with
          | Except.error e, _ => OpOutcome.err e [] []
          | Except.ok _, Except.error e => OpOutcome.err e [] []
          | Except.ok makerTok, Except.ok takerTok =>
            if makerTok.owner ≠ maker_account.key then
              OpOutcome.err (ProgramError.Custom SwapError.IncorrectOwner) [] []
            else if takerTok.owner ≠ taker_account.key then
              OpOutcome.err (ProgramError.Custom SwapError.IncorrectOwner) [] []
            else
              accept_settle offer_data taker_account offer_account maker_account
                maker_token_account taker_token_account offer_token_mint
                receive_token_mint system_program token_program
                maker_sol_account_opt taker_sol_account_opt makerTok takerTok
  | _ => OpOutcome.err ProgramError.NotEnoughAccountKeys [] []

/-- Step 3 of `process_counter_offer`: refund escrowed SOL of the original
offer, if any, to the original maker and zero the field. -/
def counter_refund_original (original_offer_data : Offer)
    (original_offer_account system_program : AccountInfo)
    (original_maker_sol_account_opt : Option AccountInfo) :
    Except ProgramError (List Effect × Offer) :=
  if original_offer_data.escrow_sol_amount > 0 then
    match original_maker_sol_account_opt with
    | none => Except.error (ProgramError.Custom SwapError.MissingRequiredAccount)
    | some oms =>
      if oms.key ≠ original_offer_data.maker then
        Except.error (ProgramError.Custom SwapError.IncorrectOwner)
      else
        match transfer_sol original_offer_account oms system_program
            original_offer_data.escrow_sol_amount true with
        | Except.error e => Except.error e
        | Except.ok t =>
          Except.ok ([t], { original_offer_data with escrow_sol_amount := 0 })
  else Except.ok ([], original_offer_data)

/-- The escrow step of `process_counter_offer` for the new record: escrow
SOL when the counter-maker's offered mint is the native sentinel, otherwise
check the counter-maker's token balance and mint. -/
def counter_escrow_new (offer_token_amount : Nat)
    (counter_maker_account new_offer_account counter_maker_token_account
      offer_token_mint system_program : AccountInfo)
    (counter_maker_sol_account_opt : Option AccountInfo) :
    Except ProgramError (List Effect × Nat) :=
  if offer_token_mint.key = nativeMintSentinel then
    match counter_maker_sol_account_opt with
    | none => Except.error (ProgramError.Custom SwapError.MissingRequiredAccount)
    | some cms =>
      if cms.key ≠ counter_maker_account.key then
        Except.error (ProgramError.Custom SwapError.IncorrectOwner)
      else
        match transfer_sol cms new_offer_account system_program offer_token_amount false with
        | Except.error e => Except.error e
        | Except.ok t => Except.ok ([t], offer_token_amount)
  else
    match unpack_token_account counter_maker_token_account with
    | Except.error e => Except.error e
    | Except.ok counterTok =>
      if offer_token_amount > counterTok.amount then
        Except.error (ProgramError.Custom SwapError.InsufficientFunds)
      else if counterTok.mint ≠ offer_token_mint.key then
        Except.error (ProgramError.Custom SwapError.TokenMismatch)
      else Except.ok ([], 0)

/-- `Processor::process_counter_offer`. -/
def process_counter_offer (fpa : FpaFn) (programId rentLamports : Nat)
    (accounts : List AccountInfo) (offer_token_amount receive_token_amount : Nat)
    (expiration : Option Int) (bump_seed : Nat) : OpOutcome :=
  match accounts with
  | counter_maker_account :: original_offer_account :: new_offer_account ::
      counter_maker_token_account :: offer_token_mint :: receive_token_mint ::
      system_program :: _token_program :: _rent_sysvar :: rest =>
    let counter_maker_sol_account_opt := rest.head?
    let original_maker_sol_account_opt := (rest.drop 1).head?
    if !counter_maker_account.is_signer then
      OpOutcome.err ProgramError.MissingRequiredSignature [] []
    else if original_offer_account.owner ≠ programId then
      OpOutcome.err (ProgramError.Custom SwapError.IncorrectOwner) [] []
    else
      match offer_try_from_slice original_offer_account with
      | Except.error e => OpOutcome.err e [] []
      | Except.ok original_offer_data =>
        let origSeeds := offerSeeds original_offer_data.maker
          original_offer_data.offer_token_mint original_offer_data.receive_token_mint
          original_offer_data.bump_seed
        if (fpa origSeeds programId).1 ≠ original_offer_account.key then
          OpOutcome.err (ProgramError.Custom SwapError.InvalidProgramAddress) [] []
        else if counter_maker_account.key ≠ original_offer_data.maker ∧
            original_offer_data.taker ≠ some counter_maker_account.key then
          OpOutcome.err (ProgramError.Custom SwapError.Unauthorized) [] []
        else if original_offer_data.status ≠ OfferStatus.Active then
          OpOutcome.err (ProgramError.Custom SwapError.InvalidOfferStatus) [] []
        else
          match counter_refund_original original_offer_data original_offer_account
              system_program original_maker_sol_account_opt with
          | Except.error e => OpOutcome.err e [] []
          | Except.ok (efs1, od1) =>
            let derived := fpa (offerSeeds counter_maker_account.key offer_token_mint.key
              receive_token_mint.key bump_seed) programId
            if derived.1 ≠ new_offer_account.key ∨ derived.2 ≠ bump_seed then
              OpOutcome.err (ProgramError.Custom SwapError.InvalidProgramAddress) efs1 []
            else
              match alloc_offer_storage counter_maker_account new_offer_account
                  programId rentLamports with
              | Except.error e => OpOutcome.err e efs1 []
              | Except.ok efs2 =>
                match counter_escrow_new offer_token_amount counter_maker_account
                    new_offer_account counter_maker_token_account offer_token_mint
                    system_program counter_maker_sol_account_opt with
                | Except.error e => OpOutcome.err e (efs1 ++ efs2) []
                | Except.ok (efs3, new_escrow) =>
                  OpOutcome.ok (efs1 ++ efs2 ++ efs3)
                    [(new_offer_account.key,
                      { offer_type := od1.offer_type
                        status := OfferStatus.Active
                        maker := counter_maker_account.key
                        taker :=
                          if od1.maker = counter_maker_account.key then od1.taker
                          else some od1.maker
                        offer_token_mint := offer_token_mint.key
                        offer_token_amount := offer_token_amount
                        receive_token_mint := receive_token_mint.key
                        receive_token_amount := receive_token_amount
                        escrow_sol_amount := new_escrow
                        expiration := expiration
                        is_counter_offer := true
                        original_offer_id := some original_offer_account.key
                        bump_seed := bump_seed }),
                     (original_offer_account.key,
                       { od1 with status := OfferStatus.Countered })]
  | _ => OpOutcome.err ProgramError.NotEnoughAccountKeys [] []

/-- The refund-and-close block of `process_cancel_offer`, entered once the
signer, owner, address and status checks have passed. -/
def cancel_settle (offer_data : Offer)
    (offer_maker_account offer_account system_program : AccountInfo)
    (maker_sol_account_opt : Option AccountInfo) : OpOutcome :=
  if offer_data.escrow_sol_amount > 0 then
    match maker_sol_account_opt with
    | none => OpOutcome.err (ProgramError.Custom SwapError.MissingRequiredAccount) [] []
    | some maker_sol =>
      if maker_sol.key ≠ offer_maker_account.key then
        OpOutcome.err (ProgramError.Custom SwapError.IncorrectOwner) [] []
      else
        match transfer_sol offer_account maker_sol system_program
            offer_data.escrow_sol_amount true with
        | Except.error e => OpOutcome.err e [] []
        | Except.ok t =>
          OpOutcome.ok [t]
            [(offer_account.key,
              { offer_data with escrow_sol_amount := 0,
                                status := OfferStatus.Declined })]
  else
    OpOutcome.ok []
      [(offer_account.key, { offer_data with status := OfferStatus.Declined })]

/-- `Processor::process_cancel_offer`. -/
def process_cancel_offer (fpa : FpaFn) (programId : Nat)
    (accounts : List AccountInfo) : OpOutcome :=
  match accounts with
  | offer_maker_account :: offer_account :: system_program :: rest =>
    let maker_sol_account_opt := rest.head?
    if !offer_maker_account.is_signer then
      OpOutcome.err ProgramError.MissingRequiredSignature [] []
    else if offer_account.owner ≠ programId then
      OpOutcome.err (ProgramError.Custom SwapError.IncorrectOwner) [] []
    else
      match offer_try_from_slice offer_account with
      | Except.error e => OpOutcome.err e [] []
      | Except.ok offer_data =>
        let seeds := offerSeeds offer_data.maker offer_data.offer_token_mint
          offer_data.receive_token_mint offer_data.bump_seed
        if (fpa seeds programId).1 ≠ offer_account.key then
          OpOutcome.err (ProgramError.Custom SwapError.InvalidProgramAddress) [] []
        else if offer_data.maker ≠ offer_maker_account.key then
          OpOutcome.err (ProgramError.Custom SwapError.Unauthorized) [] []
        else if offer_data.status ≠ OfferStatus.Active then
          OpOutcome.err (ProgramError.Custom SwapError.InvalidOfferStatus) [] []
        else
          cancel_settle offer_data offer_maker_account offer_account system_program
            maker_sol_account_opt
  | _ => OpOutcome.err ProgramError.NotEnoughAccountKeys [] []

/-! ### Helper lemmas -/

/-- Whichever settlement branch runs, the only record a successful
settlement persists is the loaded record with its status set to Accepted;
every other field, `escrow_sol_amount` included, is carried over. -/
theorem accept_settle_ok_writes {offer_data : Offer}
    {c0 c1 c2 c3 c4 c5 c6 c7 c8 : AccountInfo}
    {mso tso : Option AccountInfo} {makerTok takerTok : TokenAccount}
    {effs : List Effect} {ws : List (Nat × Offer)}
    (h : accept_settle offer_data c0 c1 c2 c3 c4 c5 c6 c7 c8 mso tso makerTok takerTok =
      OpOutcome.ok effs ws) :
    ws = [(c1.key, { offer_data with status := OfferStatus.Accepted })] := by
  unfold accept_settle at h
  repeat' split at h
  all_goals simp_all

/-- A successful settlement issues exactly two transfers. -/
theorem accept_settle_ok_effects {offer_data : Offer}
    {c0 c1 c2 c3 c4 c5 c6 c7 c8 : AccountInfo}
    {mso tso : Option AccountInfo} {makerTok takerTok : TokenAccount}
    {effs : List Effect} {ws : List (Nat × Offer)}
    (h : accept_settle offer_data c0 c1 c2 c3 c4 c5 c6 c7 c8 mso tso makerTok takerTok =
      OpOutcome.ok effs ws) :
    ∃ t1 t2, effs = [t1, t2] := by
  unfold accept_settle at h
  repeat' split at h
  all_goals first
    | (injection h with h1 h2; exact ⟨_, _, h1.symm⟩)
    | injection h

/-- Any accept attempt on a record that is no longer Active is rejected with
`InvalidOfferStatus` before any transfer or write. -/
theorem accept_not_active (fpa : FpaFn) (pid : Nat) (now : Int)
    (c0 c1 c2 c3 c4 c5 c6 c7 c8 : AccountInfo) (rest : List AccountInfo) (od : Offer)
    (hs : c0.is_signer = true) (ho : c1.owner = pid)
    (hd : c1.data = AcctData.offerRec od)
    (hp : (fpa (offerSeeds od.maker od.offer_token_mint od.receive_token_mint
      od.bump_seed) pid).1 = c1.key)
    (hst : od.status ≠ OfferStatus.Active) :
    process_accept_offer fpa pid now
      (c0 :: c1 :: c2 :: c3 :: c4 :: c5 :: c6 :: c7 :: c8 :: rest) =
      OpOutcome.err (ProgramError.Custom SwapError.InvalidOfferStatus) [] [] := by
  unfold process_accept_offer
  simp only [offer_try_from_slice, hd, hs, ho, hp]
  simp [hst]

/-- Accepting an Active offer whose expiration lies strictly in the past
commits the Expired status to the record and fails with `OfferExpired`,
with no transfer issued. -/
theorem accept_expired_commit (fpa : FpaFn) (pid : Nat) (now : Int)
    (c0 c1 c2 c3 c4 c5 c6 c7 c8 : AccountInfo) (rest : List AccountInfo) (od : Offer)
    (hs : c0.is_signer = true) (ho : c1.owner = pid)
    (hd : c1.data = AcctData.offerRec od)
    (hp : (fpa (offerSeeds od.maker od.offer_token_mint od.receive_token_mint
      od.bump_seed) pid).1 = c1.key)
    (hst : od.status = OfferStatus.Active)
    (hexp : pastExpiration od.expiration now = true) :
    process_accept_offer fpa pid now
      (c0 :: c1 :: c2 :: c3 :: c4 :: c5 :: c6 :: c7 :: c8 :: rest) =
      OpOutcome.err (ProgramError.Custom SwapError.OfferExpired) []
        [(c1.key, { od with status := OfferStatus.Expired })] := by
  unfold process_accept_offer
  simp only [offer_try_from_slice, hd, hs, ho, hp]
  simp [hst, hexp]

/-- A successful accept persists exactly one record: the loaded record with
status Accepted and all other fields unchanged. -/
theorem accept_ok_writes {fpa : FpaFn} {pid : Nat} {now : Int}
    {c0 c1 c2 c3 c4 c5 c6 c7 c8 : AccountInfo} {rest : List AccountInfo} {od : Offer}
    {effs : List Effect} {ws : List (Nat × Offer)}
    (hd : c1.data = AcctData.offerRec od)
    (h : process_accept_offer fpa pid now
      (c0 :: c1 :: c2 :: c3 :: c4 :: c5 :: c6 :: c7 :: c8 :: rest) =
      OpOutcome.ok effs ws) :
    ws = [(c1.key, { od with status := OfferStatus.Accepted })] := by
  unfold process_accept_offer at h
  simp only [offer_try_from_slice, hd] at h
  repeat' split at h
  all_goals first
    | exact accept_settle_ok_writes h
    | simp_all

/-- A successful `transfer_sol` issues exactly the system transfer of the
requested amount from the source to the destination. -/
theorem transfer_sol_ok_eq {source dest sysProg : AccountInfo} {amount : Nat}
    {pdaSigned : Bool} {t : Effect}
    (h : transfer_sol source dest sysProg amount pdaSigned = Except.ok t) :
    t = Effect.solTransfer source.key dest.key amount pdaSigned := by
  unfold transfer_sol at h
  repeat' split at h
  all_goals first
    | (injection h with h1; exact h1.symm)
    | injection h

/-- A successful cancel settlement persists exactly the loaded record with
status Declined and escrow zeroed, and refunds the whole escrow to the
caller when there was any. -/
theorem cancel_settle_ok_spec {offer_data : Offer} {c0 c1 c2 : AccountInfo}
    {mso : Option AccountInfo} {effs : List Effect} {ws : List (Nat × Offer)}
    (h : cancel_settle offer_data c0 c1 c2 mso = OpOutcome.ok effs ws) :
    ws = [(c1.key,
      { offer_data with escrow_sol_amount := 0, status := OfferStatus.Declined })] ∧
    (0 < offer_data.escrow_sol_amount →
      effs = [Effect.solTransfer c1.key c0.key offer_data.escrow_sol_amount true]) ∧
    (offer_data.escrow_sol_amount = 0 → effs = []) := by
  unfold cancel_settle at h
  repeat' split at h
  all_goals try injection h
  all_goals subst effs
  all_goals subst ws
  all_goals refine ⟨?_, fun hp => ?_, fun hz => ?_⟩
  all_goals try rfl
  all_goals try (rename_i hk x t heq
                 rw [transfer_sol_ok_eq heq, not_ne_iff.mp hk])
  all_goals try exact absurd hp (by omega)
  all_goals try exact absurd hz (by omega)
  all_goals simp [show offer_data.escrow_sol_amount = 0 from by omega]

/-- A successful cancel implies the caller is the stored maker and the
record was Active, and the settlement spec holds. -/
theorem cancel_ok_spec {fpa : FpaFn} {pid : Nat} {c0 c1 c2 : AccountInfo}
    {rest : List AccountInfo} {od : Offer}
    {effs : List Effect} {ws : List (Nat × Offer)}
    (hd : c1.data = AcctData.offerRec od)
    (h : process_cancel_offer fpa pid (c0 :: c1 :: c2 :: rest) = OpOutcome.ok effs ws) :
    od.maker = c0.key ∧ od.status = OfferStatus.Active ∧
    ws = [(c1.key,
      { od with escrow_sol_amount := 0, status := OfferStatus.Declined })] ∧
    (0 < od.escrow_sol_amount →
      effs = [Effect.solTransfer c1.key c0.key od.escrow_sol_amount true]) ∧
    (od.escrow_sol_amount = 0 → effs = []) := by
  unfold process_cancel_offer at h
  simp only [offer_try_from_slice, hd] at h
  repeat' split at h
  all_goals first
    | injection h
    | (obtain ⟨w1, w2, w3⟩ := cancel_settle_ok_spec h
       exact ⟨not_ne_iff.mp (by assumption), not_ne_iff.mp (by assumption), w1, w2, w3⟩)

/-- The original-offer refund step: on success the resulting record is the
input record with escrow zeroed, and the full escrow (when nonzero) was
sent from the offer account to the original maker under the derived
authority. -/
theorem counter_refund_spec {od : Offer} {c1 c6 : AccountInfo}
    {omso : Option AccountInfo} {efs1 : List Effect} {od1 : Offer}
    (h : counter_refund_original od c1 c6 omso = Except.ok (efs1, od1)) :
    od1 = { od with escrow_sol_amount := 0 } ∧
    (0 < od.escrow_sol_amount →
      efs1 = [Effect.solTransfer c1.key od.maker od.escrow_sol_amount true]) ∧
    (od.escrow_sol_amount = 0 → efs1 = []) := by
  unfold counter_refund_original at h
  repeat' split at h
  all_goals try injection h
  all_goals (rename_i ha
             obtain ⟨ha1, ha2⟩ := Prod.mk.inj ha
             subst efs1
             subst od1)
  all_goals refine ⟨?_, fun hp => ?_, fun hz => ?_⟩
  all_goals try rfl
  all_goals try (rename_i hk x t heq
                 rw [transfer_sol_ok_eq heq, not_ne_iff.mp hk])
  all_goals try exact absurd hp (by omega)
  all_goals try exact absurd hz (by omega)
  all_goals
    (calc od = { od with escrow_sol_amount := od.escrow_sol_amount } := rfl
      _ = { od with escrow_sol_amount := 0 } := by
          rw [show od.escrow_sol_amount = 0 from by omega])

/-- The new-offer escrow step records the offered amount as escrow exactly
when the offered mint is the native sentinel. -/
theorem counter_escrow_spec {ota : Nat} {c0 c2 c3 c4 c6 : AccountInfo}
    {cmso : Option AccountInfo} {efs3 : List Effect} {nesc : Nat}
    (h : counter_escrow_new ota c0 c2 c3 c4 c6 cmso = Except.ok (efs3, nesc)) :
    nesc = if c4.key = nativeMintSentinel then ota else 0 := by
  unfold counter_escrow_new at h
  repeat' split at h
  all_goals try injection h
  all_goals (rename_i ha
             obtain ⟨ha1, ha2⟩ := Prod.mk.inj ha
             subst efs3
             subst nesc)
  all_goals simp_all

/-- Everything a successful counter guarantees: the counter-maker was
authorized, the original record was Active, the persisted records are the
new Active counter-record (with swapped taker) followed by the original
with escrow zeroed and status Countered, and a nonzero original escrow was
refunded to the original maker first. -/
theorem counter_ok_spec {fpa : FpaFn} {pid rent : Nat}
    {c0 c1 c2 c3 c4 c5 c6 c7 c8 : AccountInfo} {rest : List AccountInfo}
    {ota rta : Nat} {exp : Option Int} {b : Nat} {od : Offer}
    {effs : List Effect} {ws : List (Nat × Offer)}
    (hd : c1.data = AcctData.offerRec od)
    (h : process_counter_offer fpa pid rent
      (c0 :: c1 :: c2 :: c3 :: c4 :: c5 :: c6 :: c7 :: c8 :: rest) ota rta exp b =
      OpOutcome.ok effs ws) :
    (c0.key = od.maker ∨ od.taker = some c0.key) ∧
    od.status = OfferStatus.Active ∧
    ws = [(c2.key,
      { offer_type := od.offer_type
        status := OfferStatus.Active
        maker := c0.key
        taker := if od.maker = c0.key then od.taker else some od.maker
        offer_token_mint := c4.key
        offer_token_amount := ota
        receive_token_mint := c5.key
        receive_token_amount := rta
        escrow_sol_amount := if c4.key = nativeMintSentinel then ota else 0
        expiration := exp
        is_counter_offer := true
        original_offer_id := some c1.key
        bump_seed := b }),
      (c1.key, { od with escrow_sol_amount := 0, status := OfferStatus.Countered })] ∧
    (0 < od.escrow_sol_amount →
      ∃ tail, effs = Effect.solTransfer c1.key od.maker od.escrow_sol_amount true :: tail) := by
  unfold process_counter_offer at h
  simp only [offer_try_from_slice, hd] at h
  repeat' split at h
  all_goals try injection h
  all_goals subst effs
  all_goals subst ws
  all_goals
    (rename_i hsig howner hpda1 hauth hstat xR eR od1 heqR hpda2 xA eA heqA xE eE nesc heqE htk
     obtain ⟨r1, r2, r3⟩ := counter_refund_spec heqR
     subst r1
     have hesc := counter_escrow_spec heqE
     subst hesc
     simp only [] at htk
     refine ⟨?_, not_ne_iff.mp hstat, ?_, fun hp => ?_⟩
     · rcases not_and_or.mp hauth with h' | h'
       · exact Or.inl (not_ne_iff.mp h')
       · exact Or.inr (not_ne_iff.mp h')
     · simp [htk]
     · rw [r2 hp]
       exact ⟨eA ++ eE, by simp⟩)

/-- CreateOffer rejects with `InvalidProgramAddress` whenever the derived
address disagrees with the supplied offer account or the canonical salt
disagrees with the supplied salt, for any deriver. -/
theorem create_pda_reject (fpa : FpaFn) (pid rent : Nat)
    (c0 c1 c2 c3 c4 c5 c6 c7 : AccountInfo) (rest : List AccountInfo)
    (ot : OfferType) (ota rta : Nat) (exp : Option Int) (b : Nat)
    (hs : c0.is_signer = true)
    (hm : (fpa (offerSeeds c0.key c3.key c4.key b) pid).1 ≠ c1.key ∨
          (fpa (offerSeeds c0.key c3.key c4.key b) pid).2 ≠ b) :
    process_create_offer fpa pid rent
      (c0 :: c1 :: c2 :: c3 :: c4 :: c5 :: c6 :: c7 :: rest) ot ota rta exp b =
      OpOutcome.err (ProgramError.Custom SwapError.InvalidProgramAddress) [] [] := by
  unfold process_create_offer
  simp only [hs, Bool.not_true, Bool.false_eq_true, if_false]
  rw [if_pos hm]

/-- The seed-list encoding is injective. -/
theorem encodeSeeds_inj : ∀ {xs ys : List Nat}, encodeSeeds xs = encodeSeeds ys → xs = ys := by
  intro xs
  induction xs with
  | nil =>
    intro ys h
    cases ys with
    | nil => rfl
    | cons y ys => simp [encodeSeeds] at h
  | cons x xs ih =>
    intro ys h
    cases ys with
    | nil => simp [encodeSeeds] at h
    | cons y ys =>
      simp only [encodeSeeds, Nat.add_left_inj] at h
      obtain ⟨h1, h2⟩ := Nat.pair_eq_pair.mp h
      rw [h1, ih h2]

/-- The modelled deriver maps distinct seed lists to distinct addresses. -/
theorem findProgramAddress_fst_inj {s1 s2 : List Nat} {pid : Nat}
    (h : (findProgramAddress s1 pid).1 = (findProgramAddress s2 pid).1) : s1 = s2 := by
  unfold findProgramAddress at h
  simp only at h
  exact encodeSeeds_inj (Nat.pair_eq_pair.mp h).2

/-- CreateOffer fails with `UninitializedAccount` when the maker's
token-holding account does not hold an initialized token account, whatever
the offer type. -/
theorem create_token_uninit (fpa : FpaFn) (pid rent : Nat)
    (c0 c1 c2 c3 c4 c5 c6 c7 : AccountInfo) (rest : List AccountInfo)
    (ot : OfferType) (ota rta : Nat) (exp : Option Int) (b : Nat) (efs0 : List Effect)
    (hs : c0.is_signer = true)
    (hp1 : (fpa (offerSeeds c0.key c3.key c4.key b) pid).1 = c1.key)
    (hp2 : (fpa (offerSeeds c0.key c3.key c4.key b) pid).2 = b)
    (halloc : alloc_offer_storage c0 c1 pid rent = Except.ok efs0)
    (hta : ∀ t, c2.data ≠ AcctData.tokenAcct t) :
    process_create_offer fpa pid rent
      (c0 :: c1 :: c2 :: c3 :: c4 :: c5 :: c6 :: c7 :: rest) ot ota rta exp b =
      OpOutcome.err ProgramError.UninitializedAccount efs0 [] := by
  have hu : unpack_token_account c2 = Except.error ProgramError.UninitializedAccount := by
    unfold unpack_token_account
    split
    · rename_i t ht2
      exact absurd ht2 (hta t)
    · rfl
  unfold process_create_offer
  simp [hs, hp1, hp2, halloc, hu]

/-- CreateOffer fails with `IncorrectOwner` when the maker's token-holding
account is not owned by the maker, whatever the offer type. -/
theorem create_token_wrong_owner (fpa : FpaFn) (pid rent : Nat)
    (c0 c1 c2 c3 c4 c5 c6 c7 : AccountInfo) (rest : List AccountInfo)
    (ot : OfferType) (ota rta : Nat) (exp : Option Int) (b : Nat) (efs0 : List Effect)
    (t : TokenAccount)
    (hs : c0.is_signer = true)
    (hp1 : (fpa (offerSeeds c0.key c3.key c4.key b) pid).1 = c1.key)
    (hp2 : (fpa (offerSeeds c0.key c3.key c4.key b) pid).2 = b)
    (halloc : alloc_offer_storage c0 c1 pid rent = Except.ok efs0)
    (hta : c2.data = AcctData.tokenAcct t)
    (how : t.owner ≠ c0.key) :
    process_create_offer fpa pid rent
      (c0 :: c1 :: c2 :: c3 :: c4 :: c5 :: c6 :: c7 :: rest) ot ota rta exp b =
      OpOutcome.err (ProgramError.Custom SwapError.IncorrectOwner) efs0 [] := by
  unfold process_create_offer
  simp [hs, hp1, hp2, halloc, unpack_token_account, hta, how]

/-- CreateOffer fails with `TokenMismatch` when the maker's token-holding
account is of an asset type other than the offered one, whatever the offer
type. -/
theorem create_token_wrong_mint (fpa : FpaFn) (pid rent : Nat)
    (c0 c1 c2 c3 c4 c5 c6 c7 : AccountInfo) (rest : List AccountInfo)
    (ot : OfferType) (ota rta : Nat) (exp : Option Int) (b : Nat) (efs0 : List Effect)
    (t : TokenAccount)
    (hs : c0.is_signer = true)
    (hp1 : (fpa (offerSeeds c0.key c3.key c4.key b) pid).1 = c1.key)
    (hp2 : (fpa (offerSeeds c0.key c3.key c4.key b) pid).2 = b)
    (halloc : alloc_offer_storage c0 c1 pid rent = Except.ok efs0)
    (hta : c2.data = AcctData.tokenAcct t)
    (how : t.owner = c0.key)
    (hmm : t.mint ≠ c3.key) :
    process_create_offer fpa pid rent
      (c0 :: c1 :: c2 :: c3 :: c4 :: c5 :: c6 :: c7 :: rest) ot ota rta exp b =
      OpOutcome.err (ProgramError.Custom SwapError.TokenMismatch) efs0 [] := by
  unfold process_create_offer
  simp [hs, hp1, hp2, halloc, unpack_token_account, hta, how, hmm]

/-- CancelOffer by anyone other than the stored maker is rejected with
`Unauthorized` before any transfer or write. -/
theorem cancel_unauthorized (fpa : FpaFn) (pid : Nat) (c0 c1 c2 : AccountInfo)
    (rest : List AccountInfo) (od : Offer)
    (hs : c0.is_signer = true) (ho : c1.owner = pid)
    (hd : c1.data = AcctData.offerRec od)
    (hp : (fpa (offerSeeds od.maker od.offer_token_mint od.receive_token_mint
      od.bump_seed) pid).1 = c1.key)
    (hmk : od.maker ≠ c0.key) :
    process_cancel_offer fpa pid (c0 :: c1 :: c2 :: rest) =
      OpOutcome.err (ProgramError.Custom SwapError.Unauthorized) [] [] := by
  unfold process_cancel_offer
  simp only [offer_try_from_slice, hd, hs, ho, hp]
  simp [hmk]

/-- CancelOffer on a record that is not Active is rejected with
`InvalidOfferStatus` before any transfer or write. -/
theorem cancel_not_active (fpa : FpaFn) (pid : Nat) (c0 c1 c2 : AccountInfo)
    (rest : List AccountInfo) (od : Offer)
    (hs : c0.is_signer = true) (ho : c1.owner = pid)
    (hd : c1.data = AcctData.offerRec od)
    (hp : (fpa (offerSeeds od.maker od.offer_token_mint od.receive_token_mint
      od.bump_seed) pid).1 = c1.key)
    (hmk : od.maker = c0.key) (hst : od.status ≠ OfferStatus.Active) :
    process_cancel_offer fpa pid (c0 :: c1 :: c2 :: rest) =
      OpOutcome.err (ProgramError.Custom SwapError.InvalidOfferStatus) [] [] := by
  unfold process_cancel_offer
  simp only [offer_try_from_slice, hd, hs, ho, hp]
  simp [hmk, hst]

/-- CancelOffer on a record whose re-derived address disagrees with the
account it was loaded from is rejected with `InvalidProgramAddress`. -/
theorem cancel_pda_mismatch (fpa : FpaFn) (pid : Nat) (c0 c1 c2 : AccountInfo)
    (rest : List AccountInfo) (od : Offer)
    (hs : c0.is_signer = true) (ho : c1.owner = pid)
    (hd : c1.data = AcctData.offerRec od)
    (hp : (fpa (offerSeeds od.maker od.offer_token_mint od.receive_token_mint
      od.bump_seed) pid).1 ≠ c1.key) :
    process_cancel_offer fpa pid (c0 :: c1 :: c2 :: rest) =
      OpOutcome.err (ProgramError.Custom SwapError.InvalidProgramAddress) [] [] := by
  unfold process_cancel_offer
  simp only [offer_try_from_slice, hd, hs, ho]
  simp [hp]

/-! ### Concrete inputs used by the closed theorems and witnesses -/

def mkAccount (k : Nat) (sg wr : Bool) (lam own : Nat) (d : AcctData) : AccountInfo :=
  { key := k, is_signer := sg, is_writable := wr, lamports := lam, owner := own, data := d }

/-- A PublicBuy offer record holding 5 escrowed SOL. -/
def odBuy : Offer :=
  { offer_type := OfferType.PublicBuy, status := OfferStatus.Active, maker := 2, taker := none,
    offer_token_mint := 8, offer_token_amount := 5, receive_token_mint := 9,
    receive_token_amount := 4, escrow_sol_amount := 5, expiration := none,
    is_counter_offer := false, original_offer_id := none, bump_seed := 1 }

/-- A deriver that maps every seed list to address 50 with canonical salt 1. -/
def fpaConst50 : FpaFn := fun _ _ => (50, 1)

/-- Accept accounts for `odBuy`: taker 3 gives 4 units of mint 9 for the 5
escrowed SOL. -/
def acceptBuyAccounts : List AccountInfo :=
  [ mkAccount 3 true true 10 0 AcctData.other,
    mkAccount 50 false true 100 7 (AcctData.offerRec odBuy),
    mkAccount 2 false true 10 0 AcctData.other,
    mkAccount 31 false true 0 0 (AcctData.tokenAcct { mint := 9, owner := 2, amount := 0 }),
    mkAccount 32 false true 0 0 (AcctData.tokenAcct { mint := 8, owner := 3, amount := 10 }),
    mkAccount 8 false false 0 0 (AcctData.mintAcct { decimals := 6 }),
    mkAccount 9 false false 0 0 (AcctData.mintAcct { decimals := 6 }),
    mkAccount 901 false false 0 0 AcctData.other,
    mkAccount 902 false false 0 0 AcctData.other,
    mkAccount 2 false true 10 0 AcctData.other ]

/-- A Direct offer whose offered side is native currency (sentinel mint),
holding 5 escrowed SOL, naming taker 3. -/
def odDirectSol : Offer :=
  { offer_type := OfferType.Direct, status := OfferStatus.Active, maker := 2, taker := some 3,
    offer_token_mint := 0, offer_token_amount := 5, receive_token_mint := 9,
    receive_token_amount := 4, escrow_sol_amount := 5, expiration := none,
    is_counter_offer := false, original_offer_id := none, bump_seed := 1 }

/-- Accept accounts for `odDirectSol` where the taker's holding account is
of exactly the asset type the maker expects to receive (mint 9), and the
mint accounts match the record's stored mints. -/
def acceptDirectSolAccounts : List AccountInfo :=
  [ mkAccount 3 true true 10 0 AcctData.other,
    mkAccount 50 false true 100 7 (AcctData.offerRec odDirectSol),
    mkAccount 2 false true 10 0 AcctData.other,
    mkAccount 31 false true 0 0 (AcctData.tokenAcct { mint := 9, owner := 2, amount := 0 }),
    mkAccount 32 false true 0 0 (AcctData.tokenAcct { mint := 9, owner := 3, amount := 10 }),
    mkAccount 0 false false 0 0 (AcctData.mintAcct { decimals := 6 }),
    mkAccount 9 false false 0 0 (AcctData.mintAcct { decimals := 6 }),
    mkAccount 901 false false 0 0 AcctData.other,
    mkAccount 902 false false 0 0 AcctData.other,
    mkAccount 2 false true 10 0 AcctData.other,
    mkAccount 3 false true 10 0 AcctData.other ]

/-- A Direct offer with native escrow used as the original record of the
counter-offer scenarios: maker 2, taker 3, escrow 5, receive mint 8. -/
def odDirectSolB : Offer :=
  { offer_type := OfferType.Direct, status := OfferStatus.Active, maker := 2, taker := some 3,
    offer_token_mint := 0, offer_token_amount := 5, receive_token_mint := 8,
    receive_token_amount := 6, escrow_sol_amount := 5, expiration := none,
    is_counter_offer := false, original_offer_id := none, bump_seed := 1 }

/-- A deriver mapping the original counter-scenario seed tuple to (50, 1)
and every other seed list to (60, 2). -/
def fpaSplit : FpaFn := fun s _ => if s = [111, 2, 0, 8, 1] then (50, 1) else (60, 2)

/-! ### Claim theorems -/

/-- C1: the claim states that `escrow_sol_amount` is nonzero only while the
offer is Active, and in particular that a successful AcceptOffer on an
offer with escrowed native currency persists a record with a zero escrowed
amount.  The code violates this: this theorem evaluates a successful accept
of the PublicBuy offer `odBuy` (escrow 5) and shows the persisted record
keeps `escrow_sol_amount = 5` while its status is Accepted, even though the
escrowed SOL was in fact transferred out to the maker. -/
theorem c1_accept_persists_nonzero_escrow :
    process_accept_offer fpaConst50 7 0 acceptBuyAccounts =
      OpOutcome.ok
        [Effect.solTransfer 50 2 5 true,
         Effect.splTransfer 32 9 31 3 4 6 false]
        [(50, { odBuy with status := OfferStatus.Accepted })] ∧
    ({ odBuy with status := OfferStatus.Accepted }).status = OfferStatus.Accepted ∧
    ({ odBuy with status := OfferStatus.Accepted }).escrow_sol_amount = 5 := by
  refine ⟨?_, rfl, rfl⟩
  rfl

/-- C3: accepting an Active offer whose expiration is set and earlier than
the current time persists the record with status Expired and fails with
`OfferExpired`; a subsequent accept on that record fails with
`InvalidOfferStatus` (with nothing written and no transfer), never with
`OfferExpired` again. -/
theorem c3_accept_expiry_commits_then_short_circuits :
    (∀ (fpa : FpaFn) (pid : Nat) (now : Int) (c0 c1 c2 c3 c4 c5 c6 c7 c8 : AccountInfo)
        (rest : List AccountInfo) (od : Offer) (e : Int),
      c0.is_signer = true → c1.owner = pid → c1.data = AcctData.offerRec od →
      (fpa (offerSeeds od.maker od.offer_token_mint od.receive_token_mint
        od.bump_seed) pid).1 = c1.key →
      od.status = OfferStatus.Active → od.expiration = some e → e < now →
      process_accept_offer fpa pid now
        (c0 :: c1 :: c2 :: c3 :: c4 :: c5 :: c6 :: c7 :: c8 :: rest) =
        OpOutcome.err (ProgramError.Custom SwapError.OfferExpired) []
          [(c1.key, { od with status := OfferStatus.Expired })]) ∧
    (∀ (fpa : FpaFn) (pid : Nat) (now : Int) (c0 c1 c2 c3 c4 c5 c6 c7 c8 : AccountInfo)
        (rest : List AccountInfo) (od : Offer),
      c0.is_signer = true → c1.owner = pid → c1.data = AcctData.offerRec od →
      (fpa (offerSeeds od.maker od.offer_token_mint od.receive_token_mint
        od.bump_seed) pid).1 = c1.key →
      od.status = OfferStatus.Expired →
      process_accept_offer fpa pid now
        (c0 :: c1 :: c2 :: c3 :: c4 :: c5 :: c6 :: c7 :: c8 :: rest) =
        OpOutcome.err (ProgramError.Custom SwapError.InvalidOfferStatus) [] []) := by
  constructor
  · intro fpa pid now c0 c1 c2 c3 c4 c5 c6 c7 c8 rest od e hs ho hd hp hact hexp hlt
    apply accept_expired_commit fpa pid now c0 c1 c2 c3 c4 c5 c6 c7 c8 rest od hs ho hd hp hact
    simp [pastExpiration, hexp]
    exact hlt
  · intro fpa pid now c0 c1 c2 c3 c4 c5 c6 c7 c8 rest od hs ho hd hp hst
    apply accept_not_active fpa pid now c0 c1 c2 c3 c4 c5 c6 c7 c8 rest od hs ho hd hp
    simp [hst]

/-- Witness for C3 at a concrete input: an Active offer expiring at time 10
accepted at time 11, then the Expired record accepted again. -/
theorem c3_witness :
    (process_accept_offer fpaConst50 7 11
      [ mkAccount 3 true true 10 0 AcctData.other,
        mkAccount 50 false true 100 7
          (AcctData.offerRec { odBuy with expiration := some 10 }),
        mkAccount 2 false true 10 0 AcctData.other,
        mkAccount 31 false true 0 0 (AcctData.tokenAcct { mint := 9, owner := 2, amount := 0 }),
        mkAccount 32 false true 0 0 (AcctData.tokenAcct { mint := 8, owner := 3, amount := 10 }),
        mkAccount 8 false false 0 0 (AcctData.mintAcct { decimals := 6 }),
        mkAccount 9 false false 0 0 (AcctData.mintAcct { decimals := 6 }),
        mkAccount 901 false false 0 0 AcctData.other,
        mkAccount 902 false false 0 0 AcctData.other,
        mkAccount 2 false true 10 0 AcctData.other ] =
      OpOutcome.err (ProgramError.Custom SwapError.OfferExpired) []
        [(50, { { odBuy with expiration := some 10 } with status := OfferStatus.Expired })]) ∧
    (process_accept_offer fpaConst50 7 12
      [ mkAccount 3 true true 10 0 AcctData.other,
        mkAccount 50 false true 100 7
          (AcctData.offerRec { odBuy with expiration := some 10,
                                          status := OfferStatus.Expired }),
        mkAccount 2 false true 10 0 AcctData.other,
        mkAccount 31 false true 0 0 (AcctData.tokenAcct { mint := 9, owner := 2, amount := 0 }),
        mkAccount 32 false true 0 0 (AcctData.tokenAcct { mint := 8, owner := 3, amount := 10 }),
        mkAccount 8 false false 0 0 (AcctData.mintAcct { decimals := 6 }),
        mkAccount 9 false false 0 0 (AcctData.mintAcct { decimals := 6 }),
        mkAccount 901 false false 0 0 AcctData.other,
        mkAccount 902 false false 0 0 AcctData.other,
        mkAccount 2 false true 10 0 AcctData.other ] =
      OpOutcome.err (ProgramError.Custom SwapError.InvalidOfferStatus) [] []) := by
  constructor
  · apply c3_accept_expiry_commits_then_short_circuits.1 fpaConst50 7 11
    all_goals first | rfl | decide
  · apply c3_accept_expiry_commits_then_short_circuits.2 fpaConst50 7 12
    all_goals first | rfl | decide

/-- C4: the claim states that in the native-for-asset branch the acceptor's
holding account must be of the asset type the maker expects to receive
(`receive_token_mint`), with a mismatch rejected as TokenMismatch.  The
code instead compares the acceptor's mint against the caller-supplied
offer-side mint account — inconsistently with its own settlement transfer,
which moves `receive_token_amount` of `receive_token_mint` out of that very
account.  This theorem evaluates the code on `acceptDirectSolAccounts`,
where the taker's holding account is of exactly the record's receive asset
(mint 9) and every mint account matches the record, and shows the accept
is nevertheless rejected with TokenMismatch. -/
theorem c4_accept_native_branch_checks_wrong_mint :
    odDirectSol.escrow_sol_amount = 5 ∧
    odDirectSol.receive_token_mint = 9 ∧
    (match (acceptDirectSolAccounts.get? 4).map AccountInfo.data with
      | some (AcctData.tokenAcct t) => t.mint = 9 ∧ t.owner = 3
      | _ => False) ∧
    process_accept_offer fpaConst50 7 0 acceptDirectSolAccounts =
      OpOutcome.err (ProgramError.Custom SwapError.TokenMismatch) [] [] := by
  exact ⟨rfl, rfl, ⟨rfl, rfl⟩, rfl⟩

/-- C5: accepting an already-accepted offer fails with `InvalidOfferStatus`
with no transfer issued and nothing written, so no balance changes. -/
theorem c5_second_accept_rejected :
    ∀ (fpa : FpaFn) (pid : Nat) (now : Int) (c0 c1 c2 c3 c4 c5 c6 c7 c8 : AccountInfo)
      (rest : List AccountInfo) (od : Offer),
      c0.is_signer = true → c1.owner = pid → c1.data = AcctData.offerRec od →
      (fpa (offerSeeds od.maker od.offer_token_mint od.receive_token_mint
        od.bump_seed) pid).1 = c1.key →
      od.status = OfferStatus.Accepted →
      process_accept_offer fpa pid now
        (c0 :: c1 :: c2 :: c3 :: c4 :: c5 :: c6 :: c7 :: c8 :: rest) =
        OpOutcome.err (ProgramError.Custom SwapError.InvalidOfferStatus) [] [] := by
  intro fpa pid now c0 c1 c2 c3 c4 c5 c6 c7 c8 rest od hs ho hd hp hst
  apply accept_not_active fpa pid now c0 c1 c2 c3 c4 c5 c6 c7 c8 rest od hs ho hd hp
  simp [hst]

/-- Witness for C5: a second accept of the already-accepted `odBuy`. -/
theorem c5_witness :
    process_accept_offer fpaConst50 7 0
      [ mkAccount 3 true true 10 0 AcctData.other,
        mkAccount 50 false true 100 7
          (AcctData.offerRec { odBuy with status := OfferStatus.Accepted }),
        mkAccount 2 false true 10 0 AcctData.other,
        mkAccount 31 false true 0 0 (AcctData.tokenAcct { mint := 9, owner := 2, amount := 0 }),
        mkAccount 32 false true 0 0 (AcctData.tokenAcct { mint := 8, owner := 3, amount := 10 }),
        mkAccount 8 false false 0 0 (AcctData.mintAcct { decimals := 6 }),
        mkAccount 9 false false 0 0 (AcctData.mintAcct { decimals := 6 }),
        mkAccount 901 false false 0 0 AcctData.other,
        mkAccount 902 false false 0 0 AcctData.other,
        mkAccount 2 false true 10 0 AcctData.other ] =
      OpOutcome.err (ProgramError.Custom SwapError.InvalidOfferStatus) [] [] := by
  apply c5_second_accept_rejected fpaConst50 7 0
  all_goals rfl

/-- C2: CreateOffer recomputes the offer address from the seed tuple
(maker, offer asset, receive asset, salt) and rejects with
`InvalidProgramAddress` whenever the recomputed address differs from the
supplied offer account or the canonical salt differs from the supplied
salt (for any deriver); re-derivation from a fixed tuple is deterministic;
and, for the modelled deriver, supplying any other salt for the same tuple
and the same offer address fails with `InvalidProgramAddress`. -/
theorem c2_create_address_integrity :
    (∀ (fpa : FpaFn) (pid rent : Nat) (c0 c1 c2 c3 c4 c5 c6 c7 : AccountInfo)
        (rest : List AccountInfo) (ot : OfferType) (ota rta : Nat)
        (exp : Option Int) (b : Nat),
      c0.is_signer = true →
      ((fpa (offerSeeds c0.key c3.key c4.key b) pid).1 ≠ c1.key ∨
        (fpa (offerSeeds c0.key c3.key c4.key b) pid).2 ≠ b) →
      process_create_offer fpa pid rent
        (c0 :: c1 :: c2 :: c3 :: c4 :: c5 :: c6 :: c7 :: rest) ot ota rta exp b =
        OpOutcome.err (ProgramError.Custom SwapError.InvalidProgramAddress) [] []) ∧
    (∀ (seeds : List Nat) (pid : Nat),
      findProgramAddress seeds pid = findProgramAddress seeds pid) ∧
    (∀ (pid rent : Nat) (c0 c1 c2 c3 c4 c5 c6 c7 : AccountInfo)
        (rest : List AccountInfo) (ot : OfferType) (ota rta : Nat)
        (exp : Option Int) (b b2 : Nat),
      c0.is_signer = true →
      c1.key = (findProgramAddress (offerSeeds c0.key c3.key c4.key b) pid).1 →
      b2 ≠ b →
      process_create_offer findProgramAddress pid rent
        (c0 :: c1 :: c2 :: c3 :: c4 :: c5 :: c6 :: c7 :: rest) ot ota rta exp b2 =
        OpOutcome.err (ProgramError.Custom SwapError.InvalidProgramAddress) [] []) := by
  refine ⟨create_pda_reject, fun _ _ => rfl, ?_⟩
  intro pid rent c0 c1 c2 c3 c4 c5 c6 c7 rest ot ota rta exp b b2 hs hkey hne
  refine create_pda_reject _ _ _ _ _ _ _ _ _ _ _ _ _ _ _ _ _ hs ?_
  left
  rw [hkey]
  intro hcontra
  have hsame := findProgramAddress_fst_inj hcontra
  simp only [offerSeeds, List.cons.injEq, and_true] at hsame
  exact hne hsame.2.2.2.2

/-- Witness for C2: a mismatched address is rejected; derivation is
deterministic on a concrete tuple; and salt 5 is rejected for a tuple
whose address was derived with salt 0. -/
theorem c2_witness :
    (process_create_offer findProgramAddress 7 100
      [ mkAccount 1 true true 10 0 AcctData.other,
        mkAccount 0 false true 0 0 AcctData.empty,
        mkAccount 52 false true 0 0 (AcctData.tokenAcct { mint := 2, owner := 1, amount := 10 }),
        mkAccount 2 false false 0 0 AcctData.other,
        mkAccount 3 false false 0 0 AcctData.other,
        mkAccount 901 false false 0 0 AcctData.other,
        mkAccount 902 false false 0 0 AcctData.other,
        mkAccount 903 false false 0 0 AcctData.other ]
      OfferType.PublicSell 5 4 none 0 =
      OpOutcome.err (ProgramError.Custom SwapError.InvalidProgramAddress) [] []) ∧
    (findProgramAddress (offerSeeds 1 2 3 0) 7 = findProgramAddress (offerSeeds 1 2 3 0) 7) ∧
    (process_create_offer findProgramAddress 7 100
      [ mkAccount 1 true true 10 0 AcctData.other,
        mkAccount (findProgramAddress (offerSeeds 1 2 3 0) 7).1 false true 0 0 AcctData.empty,
        mkAccount 52 false true 0 0 (AcctData.tokenAcct { mint := 2, owner := 1, amount := 10 }),
        mkAccount 2 false false 0 0 AcctData.other,
        mkAccount 3 false false 0 0 AcctData.other,
        mkAccount 901 false false 0 0 AcctData.other,
        mkAccount 902 false false 0 0 AcctData.other,
        mkAccount 903 false false 0 0 AcctData.other ]
      OfferType.PublicSell 5 4 none 5 =
      OpOutcome.err (ProgramError.Custom SwapError.InvalidProgramAddress) [] []) := by
  refine ⟨?_, c2_create_address_integrity.2.1 (offerSeeds 1 2 3 0) 7, ?_⟩
  · apply c2_create_address_integrity.1 findProgramAddress 7 100
    · rfl
    · left
      decide
  · exact c2_create_address_integrity.2.2 7 100
      (mkAccount 1 true true 10 0 AcctData.other)
      (mkAccount (findProgramAddress (offerSeeds 1 2 3 0) 7).1 false true 0 0 AcctData.empty)
      (mkAccount 52 false true 0 0 (AcctData.tokenAcct { mint := 2, owner := 1, amount := 10 }))
      (mkAccount 2 false false 0 0 AcctData.other)
      (mkAccount 3 false false 0 0 AcctData.other)
      (mkAccount 901 false false 0 0 AcctData.other)
      (mkAccount 902 false false 0 0 AcctData.other)
      (mkAccount 903 false false 0 0 AcctData.other)
      [] OfferType.PublicSell 5 4 none 0 5 rfl rfl (by decide)

/-- C6: a successful CounterOffer on an original offer holding native
currency in escrow refunds the full `escrow_sol_amount` to the original
maker (the refund is the first transfer issued), zeroes the field on the
original record, persists the original with status Countered, and persists
the new record Active. -/
theorem c6_counter_refunds_escrow :
    ∀ (fpa : FpaFn) (pid rent : Nat) (c0 c1 c2 c3 c4 c5 c6 c7 c8 : AccountInfo)
      (rest : List AccountInfo) (ota rta : Nat) (exp : Option Int) (b : Nat)
      (od : Offer) (effs : List Effect) (ws : List (Nat × Offer)),
      c1.data = AcctData.offerRec od →
      0 < od.escrow_sol_amount →
      process_counter_offer fpa pid rent
        (c0 :: c1 :: c2 :: c3 :: c4 :: c5 :: c6 :: c7 :: c8 :: rest) ota rta exp b =
        OpOutcome.ok effs ws →
      (∃ tail, effs =
        Effect.solTransfer c1.key od.maker od.escrow_sol_amount true :: tail) ∧
      (∃ newRec, ws = [(c2.key, newRec),
        (c1.key, { od with escrow_sol_amount := 0, status := OfferStatus.Countered })] ∧
        newRec.status = OfferStatus.Active) := by
  intro fpa pid rent c0 c1 c2 c3 c4 c5 c6 c7 c8 rest ota rta exp b od effs ws hd hpos h
  obtain ⟨_, _, hws, heff⟩ := counter_ok_spec hd h
  exact ⟨heff hpos, ⟨_, hws, rfl⟩⟩

/-- Witness for C6: taker 3 counters the Direct SOL offer of maker 2
(escrow 5); the refund to maker 2 leads the effect list and both records
are persisted as the claim states. -/
theorem c6_witness :
    (∃ tail,
      [Effect.solTransfer 50 2 5 true, Effect.createAccount 3 60 100 199 7] =
        Effect.solTransfer 50 2 5 true :: tail) ∧
    (∃ newRec,
      [(60,
        { offer_type := OfferType.Direct, status := OfferStatus.Active, maker := 3,
          taker := some 2, offer_token_mint := 8, offer_token_amount := 7,
          receive_token_mint := 0, receive_token_amount := 9, escrow_sol_amount := 0,
          expiration := (none : Option Int), is_counter_offer := true,
          original_offer_id := some 50, bump_seed := 2 }),
       (50, { odDirectSolB with
            escrow_sol_amount := 0
            status := OfferStatus.Countered })] =
        [((60 : Nat), newRec), ((50 : Nat), { odDirectSolB with
            escrow_sol_amount := 0
            status := OfferStatus.Countered })] ∧
      newRec.status = OfferStatus.Active) := by
  apply c6_counter_refunds_escrow fpaSplit 7 100
    (mkAccount 3 true true 10 0 AcctData.other)
    (mkAccount 50 false true 100 7 (AcctData.offerRec odDirectSolB))
    (mkAccount 60 false true 0 0 AcctData.empty)
    (mkAccount 33 false true 0 0 (AcctData.tokenAcct { mint := 8, owner := 3, amount := 50 }))
    (mkAccount 8 false false 0 0 (AcctData.mintAcct { decimals := 6 }))
    (mkAccount 0 false false 0 0 AcctData.other)
    (mkAccount 901 false false 0 0 AcctData.other)
    (mkAccount 902 false false 0 0 AcctData.other)
    (mkAccount 903 false false 0 0 AcctData.other)
    [mkAccount 3 false true 10 0 AcctData.other, mkAccount 2 false true 10 0 AcctData.other]
    7 9 none 2 odDirectSolB
  · rfl
  · decide
  · rfl

/-- C7: on a successful CounterOffer the new record's taker is whichever of
original maker and original taker is not the counter-maker: the
counter-maker is one of the two, and when the counter-maker is the
original maker the taker is carried over, otherwise the taker becomes the
original maker. -/
theorem c7_counter_role_swap :
    ∀ (fpa : FpaFn) (pid rent : Nat) (c0 c1 c2 c3 c4 c5 c6 c7 c8 : AccountInfo)
      (rest : List AccountInfo) (ota rta : Nat) (exp : Option Int) (b : Nat)
      (od : Offer) (effs : List Effect) (ws : List (Nat × Offer)),
      c1.data = AcctData.offerRec od →
      process_counter_offer fpa pid rent
        (c0 :: c1 :: c2 :: c3 :: c4 :: c5 :: c6 :: c7 :: c8 :: rest) ota rta exp b =
        OpOutcome.ok effs ws →
      (c0.key = od.maker ∨ od.taker = some c0.key) ∧
      ∃ newRec origRec, ws = [(c2.key, newRec), (c1.key, origRec)] ∧
        (od.maker = c0.key → newRec.taker = od.taker) ∧
        (od.maker ≠ c0.key → newRec.taker = some od.maker) := by
  intro fpa pid rent c0 c1 c2 c3 c4 c5 c6 c7 c8 rest ota rta exp b od effs ws hd h
  obtain ⟨hauth, _, hws, _⟩ := counter_ok_spec hd h
  refine ⟨hauth, _, _, hws, fun hm => ?_, fun hm => ?_⟩
  · simp [hm]
  · simp [hm]

/-- Witness for C7: countered by the original taker (3 ≠ maker 2), the new
record's taker equals the original maker 2. -/
theorem c7_witness :
    ((3 : Nat) = odDirectSolB.maker ∨ odDirectSolB.taker = some 3) ∧
    ∃ newRec origRec,
      [(60,
        { offer_type := OfferType.Direct, status := OfferStatus.Active, maker := 3,
          taker := some 2, offer_token_mint := 8, offer_token_amount := 7,
          receive_token_mint := 0, receive_token_amount := 9, escrow_sol_amount := 0,
          expiration := (none : Option Int), is_counter_offer := true,
          original_offer_id := some 50, bump_seed := 2 }),
       (50, { odDirectSolB with
            escrow_sol_amount := 0
            status := OfferStatus.Countered })] =
        [((60 : Nat), newRec), ((50 : Nat), origRec)] ∧
      (odDirectSolB.maker = 3 → newRec.taker = odDirectSolB.taker) ∧
      (odDirectSolB.maker ≠ 3 → newRec.taker = some odDirectSolB.maker) := by
  apply c7_counter_role_swap fpaSplit 7 100
    (mkAccount 3 true true 10 0 AcctData.other)
    (mkAccount 50 false true 100 7 (AcctData.offerRec odDirectSolB))
    (mkAccount 60 false true 0 0 AcctData.empty)
    (mkAccount 33 false true 0 0 (AcctData.tokenAcct { mint := 8, owner := 3, amount := 50 }))
    (mkAccount 8 false false 0 0 (AcctData.mintAcct { decimals := 6 }))
    (mkAccount 0 false false 0 0 AcctData.other)
    (mkAccount 901 false false 0 0 AcctData.other)
    (mkAccount 902 false false 0 0 AcctData.other)
    (mkAccount 903 false false 0 0 AcctData.other)
    [mkAccount 3 false true 10 0 AcctData.other, mkAccount 2 false true 10 0 AcctData.other]
    7 9 none 2 odDirectSolB
  · rfl
  · rfl

/-- C8: CancelOffer loads and re-derive-verifies the record (address
mismatch is `InvalidProgramAddress`), rejects `Unauthorized` unless the
caller is the stored maker, rejects `InvalidOfferStatus` unless the record
is Active, refunds a nonzero escrow in full to the maker's account and
zeroes the field, and persists the record with status Declined. -/
theorem c8_cancel_contract :
    (∀ (fpa : FpaFn) (pid : Nat) (c0 c1 c2 : AccountInfo) (rest : List AccountInfo)
        (od : Offer),
      c0.is_signer = true → c1.owner = pid → c1.data = AcctData.offerRec od →
      (fpa (offerSeeds od.maker od.offer_token_mint od.receive_token_mint
        od.bump_seed) pid).1 ≠ c1.key →
      process_cancel_offer fpa pid (c0 :: c1 :: c2 :: rest) =
        OpOutcome.err (ProgramError.Custom SwapError.InvalidProgramAddress) [] []) ∧
    (∀ (fpa : FpaFn) (pid : Nat) (c0 c1 c2 : AccountInfo) (rest : List AccountInfo)
        (od : Offer),
      c0.is_signer = true → c1.owner = pid → c1.data = AcctData.offerRec od →
      (fpa (offerSeeds od.maker od.offer_token_mint od.receive_token_mint
        od.bump_seed) pid).1 = c1.key →
      od.maker ≠ c0.key →
      process_cancel_offer fpa pid (c0 :: c1 :: c2 :: rest) =
        OpOutcome.err (ProgramError.Custom SwapError.Unauthorized) [] []) ∧
    (∀ (fpa : FpaFn) (pid : Nat) (c0 c1 c2 : AccountInfo) (rest : List AccountInfo)
        (od : Offer),
      c0.is_signer = true → c1.owner = pid → c1.data = AcctData.offerRec od →
      (fpa (offerSeeds od.maker od.offer_token_mint od.receive_token_mint
        od.bump_seed) pid).1 = c1.key →
      od.maker = c0.key → od.status ≠ OfferStatus.Active →
      process_cancel_offer fpa pid (c0 :: c1 :: c2 :: rest) =
        OpOutcome.err (ProgramError.Custom SwapError.InvalidOfferStatus) [] []) ∧
    (∀ (fpa : FpaFn) (pid : Nat) (c0 c1 c2 : AccountInfo) (rest : List AccountInfo)
        (od : Offer) (effs : List Effect) (ws : List (Nat × Offer)),
      c1.data = AcctData.offerRec od →
      process_cancel_offer fpa pid (c0 :: c1 :: c2 :: rest) = OpOutcome.ok effs ws →
      od.maker = c0.key ∧ od.status = OfferStatus.Active ∧
      ws = [(c1.key,
        { od with escrow_sol_amount := 0, status := OfferStatus.Declined })] ∧
      (0 < od.escrow_sol_amount →
        effs = [Effect.solTransfer c1.key c0.key od.escrow_sol_amount true]) ∧
      (od.escrow_sol_amount = 0 → effs = [])) := by
  refine ⟨cancel_pda_mismatch, cancel_unauthorized, cancel_not_active, ?_⟩
  intro fpa pid c0 c1 c2 rest od effs ws hd h
  exact cancel_ok_spec hd h

/-- Witness for C8: address mismatch, wrong caller, non-Active record, and
a successful cancel of the escrowed PublicBuy offer with its refund. -/
theorem c8_witness :
    (process_cancel_offer fpaConst50 7
      [ mkAccount 2 true true 10 0 AcctData.other,
        mkAccount 51 false true 100 7 (AcctData.offerRec odBuy),
        mkAccount 901 false false 0 0 AcctData.other,
        mkAccount 2 false true 10 0 AcctData.other ] =
      OpOutcome.err (ProgramError.Custom SwapError.InvalidProgramAddress) [] []) ∧
    (process_cancel_offer fpaConst50 7
      [ mkAccount 4 true true 10 0 AcctData.other,
        mkAccount 50 false true 100 7 (AcctData.offerRec odBuy),
        mkAccount 901 false false 0 0 AcctData.other,
        mkAccount 4 false true 10 0 AcctData.other ] =
      OpOutcome.err (ProgramError.Custom SwapError.Unauthorized) [] []) ∧
    (process_cancel_offer fpaConst50 7
      [ mkAccount 2 true true 10 0 AcctData.other,
        mkAccount 50 false true 100 7
          (AcctData.offerRec { odBuy with status := OfferStatus.Declined }),
        mkAccount 901 false false 0 0 AcctData.other,
        mkAccount 2 false true 10 0 AcctData.other ] =
      OpOutcome.err (ProgramError.Custom SwapError.InvalidOfferStatus) [] []) ∧
    (odBuy.maker = 2 ∧ odBuy.status = OfferStatus.Active ∧
      [((50 : Nat), { odBuy with
          escrow_sol_amount := 0
          status := OfferStatus.Declined })] =
        [((50 : Nat), { odBuy with
          escrow_sol_amount := 0
          status := OfferStatus.Declined })] ∧
      (0 < odBuy.escrow_sol_amount →
        [Effect.solTransfer 50 2 5 true] = [Effect.solTransfer 50 2 odBuy.escrow_sol_amount true]) ∧
      (odBuy.escrow_sol_amount = 0 → [Effect.solTransfer 50 2 5 true] = [])) := by
  refine ⟨?_, ?_, ?_, ?_⟩
  · apply c8_cancel_contract.1 fpaConst50 7
    · rfl
    · rfl
    · rfl
    · decide
  · apply c8_cancel_contract.2.1 fpaConst50 7
    · rfl
    · rfl
    · rfl
    · rfl
    · decide
  · apply c8_cancel_contract.2.2.1 fpaConst50 7
    · rfl
    · rfl
    · rfl
    · rfl
    · rfl
    · decide
  · apply c8_cancel_contract.2.2.2 fpaConst50 7
      (mkAccount 2 true true 10 0 AcctData.other)
      (mkAccount 50 false true 100 7 (AcctData.offerRec odBuy))
      (mkAccount 901 false false 0 0 AcctData.other)
      [mkAccount 2 false true 10 0 AcctData.other]
      odBuy
    · rfl
    · rfl

/-- C9: a successful AcceptOffer or CancelOffer persists only records that
agree with the loaded record on every field other than `status` and
`escrow_sol_amount`: kind, maker, taker, both asset identities, both
amounts, expiration, both provenance fields, and the derivation salt are
carried over unchanged. -/
theorem c9_accept_cancel_frame :
    (∀ (fpa : FpaFn) (pid : Nat) (now : Int) (c0 c1 c2 c3 c4 c5 c6 c7 c8 : AccountInfo)
        (rest : List AccountInfo) (od : Offer) (effs : List Effect)
        (ws : List (Nat × Offer)) (k : Nat) (r : Offer),
      c1.data = AcctData.offerRec od →
      process_accept_offer fpa pid now
        (c0 :: c1 :: c2 :: c3 :: c4 :: c5 :: c6 :: c7 :: c8 :: rest) =
        OpOutcome.ok effs ws →
      (k, r) ∈ ws →
      (r.offer_type, r.maker, r.taker, r.offer_token_mint, r.offer_token_amount,
        r.receive_token_mint, r.receive_token_amount, r.expiration,
        r.is_counter_offer, r.original_offer_id, r.bump_seed) =
      (od.offer_type, od.maker, od.taker, od.offer_token_mint, od.offer_token_amount,
        od.receive_token_mint, od.receive_token_amount, od.expiration,
        od.is_counter_offer, od.original_offer_id, od.bump_seed)) ∧
    (∀ (fpa : FpaFn) (pid : Nat) (c0 c1 c2 : AccountInfo) (rest : List AccountInfo)
        (od : Offer) (effs : List Effect) (ws : List (Nat × Offer)) (k : Nat) (r : Offer),
      c1.data = AcctData.offerRec od →
      process_cancel_offer fpa pid (c0 :: c1 :: c2 :: rest) = OpOutcome.ok effs ws →
      (k, r) ∈ ws →
      (r.offer_type, r.maker, r.taker, r.offer_token_mint, r.offer_token_amount,
        r.receive_token_mint, r.receive_token_amount, r.expiration,
        r.is_counter_offer, r.original_offer_id, r.bump_seed) =
      (od.offer_type, od.maker, od.taker, od.offer_token_mint, od.offer_token_amount,
        od.receive_token_mint, od.receive_token_amount, od.expiration,
        od.is_counter_offer, od.original_offer_id, od.bump_seed)) := by
  constructor
  · intro fpa pid now c0 c1 c2 c3 c4 c5 c6 c7 c8 rest od effs ws k r hd h hmem
    rw [accept_ok_writes hd h] at hmem
    simp only [List.mem_singleton, Prod.mk.injEq] at hmem
    obtain ⟨hk, hr⟩ := hmem
    subst hr
    rfl
  · intro fpa pid c0 c1 c2 rest od effs ws k r hd h hmem
    obtain ⟨_, _, hws, _, _⟩ := cancel_ok_spec hd h
    rw [hws] at hmem
    simp only [List.mem_singleton, Prod.mk.injEq] at hmem
    obtain ⟨hk, hr⟩ := hmem
    subst hr
    rfl

/-- Witness for C9: the record persisted by a successful accept of `odBuy`
and by a successful cancel of `odBuy` agree with the loaded record on all
frame fields. -/
theorem c9_witness :
    ((({ odBuy with status := OfferStatus.Accepted }).offer_type,
      ({ odBuy with status := OfferStatus.Accepted }).maker,
      ({ odBuy with status := OfferStatus.Accepted }).taker,
      ({ odBuy with status := OfferStatus.Accepted }).offer_token_mint,
      ({ odBuy with status := OfferStatus.Accepted }).offer_token_amount,
      ({ odBuy with status := OfferStatus.Accepted }).receive_token_mint,
      ({ odBuy with status := OfferStatus.Accepted }).receive_token_amount,
      ({ odBuy with status := OfferStatus.Accepted }).expiration,
      ({ odBuy with status := OfferStatus.Accepted }).is_counter_offer,
      ({ odBuy with status := OfferStatus.Accepted }).original_offer_id,
      ({ odBuy with status := OfferStatus.Accepted }).bump_seed) =
      (odBuy.offer_type, odBuy.maker, odBuy.taker, odBuy.offer_token_mint,
        odBuy.offer_token_amount, odBuy.receive_token_mint, odBuy.receive_token_amount,
        odBuy.expiration, odBuy.is_counter_offer, odBuy.original_offer_id,
        odBuy.bump_seed)) ∧
    ((({ odBuy with escrow_sol_amount := 0, status := OfferStatus.Declined }).offer_type,
      ({ odBuy with escrow_sol_amount := 0, status := OfferStatus.Declined }).maker,
      ({ odBuy with escrow_sol_amount := 0, status := OfferStatus.Declined }).taker,
      ({ odBuy with escrow_sol_amount := 0, status := OfferStatus.Declined }).offer_token_mint,
      ({ odBuy with escrow_sol_amount := 0, status := OfferStatus.Declined }).offer_token_amount,
      ({ odBuy with escrow_sol_amount := 0, status := OfferStatus.Declined }).receive_token_mint,
      ({ odBuy with escrow_sol_amount := 0, status := OfferStatus.Declined }).receive_token_amount,
      ({ odBuy with escrow_sol_amount := 0, status := OfferStatus.Declined }).expiration,
      ({ odBuy with escrow_sol_amount := 0, status := OfferStatus.Declined }).is_counter_offer,
      ({ odBuy with escrow_sol_amount := 0, status := OfferStatus.Declined }).original_offer_id,
      ({ odBuy with escrow_sol_amount := 0, status := OfferStatus.Declined }).bump_seed) =
      (odBuy.offer_type, odBuy.maker, odBuy.taker, odBuy.offer_token_mint,
        odBuy.offer_token_amount, odBuy.receive_token_mint, odBuy.receive_token_amount,
        odBuy.expiration, odBuy.is_counter_offer, odBuy.original_offer_id,
        odBuy.bump_seed)) := by
  constructor
  · apply c9_accept_cancel_frame.1 fpaConst50 7 0
      (mkAccount 3 true true 10 0 AcctData.other)
      (mkAccount 50 false true 100 7 (AcctData.offerRec odBuy))
      (mkAccount 2 false true 10 0 AcctData.other)
      (mkAccount 31 false true 0 0 (AcctData.tokenAcct { mint := 9, owner := 2, amount := 0 }))
      (mkAccount 32 false true 0 0 (AcctData.tokenAcct { mint := 8, owner := 3, amount := 10 }))
      (mkAccount 8 false false 0 0 (AcctData.mintAcct { decimals := 6 }))
      (mkAccount 9 false false 0 0 (AcctData.mintAcct { decimals := 6 }))
      (mkAccount 901 false false 0 0 AcctData.other)
      (mkAccount 902 false false 0 0 AcctData.other)
      [mkAccount 2 false true 10 0 AcctData.other] odBuy
      [Effect.solTransfer 50 2 5 true, Effect.splTransfer 32 9 31 3 4 6 false]
      [(50, { odBuy with status := OfferStatus.Accepted })] 50
    · rfl
    · rfl
    · exact List.mem_singleton.mpr rfl
  · apply c9_accept_cancel_frame.2 fpaConst50 7
      (mkAccount 2 true true 10 0 AcctData.other)
      (mkAccount 50 false true 100 7 (AcctData.offerRec odBuy))
      (mkAccount 901 false false 0 0 AcctData.other)
      [mkAccount 2 false true 10 0 AcctData.other] odBuy
      [Effect.solTransfer 50 2 5 true]
      [(50, { odBuy with escrow_sol_amount := 0, status := OfferStatus.Declined })] 50
    · rfl
    · rfl
    · exact List.mem_singleton.mpr rfl

/-- C10: every CreateOffer, whatever the offer type (so also PublicBuy and
Direct offers whose offered side is native currency), requires the maker's
token-holding account to be an initialized token account owned by the
maker with the offered asset type, rejecting otherwise with
`UninitializedAccount`, `IncorrectOwner`, or `TokenMismatch`. -/
theorem c10_create_requires_maker_token_account :
    (∀ (fpa : FpaFn) (pid rent : Nat) (c0 c1 c2 c3 c4 c5 c6 c7 : AccountInfo)
        (rest : List AccountInfo) (ot : OfferType) (ota rta : Nat)
        (exp : Option Int) (b : Nat) (efs0 : List Effect),
      c0.is_signer = true →
      (fpa (offerSeeds c0.key c3.key c4.key b) pid).1 = c1.key →
      (fpa (offerSeeds c0.key c3.key c4.key b) pid).2 = b →
      alloc_offer_storage c0 c1 pid rent = Except.ok efs0 →
      (∀ t, c2.data ≠ AcctData.tokenAcct t) →
      process_create_offer fpa pid rent
        (c0 :: c1 :: c2 :: c3 :: c4 :: c5 :: c6 :: c7 :: rest) ot ota rta exp b =
        OpOutcome.err ProgramError.UninitializedAccount efs0 []) ∧
    (∀ (fpa : FpaFn) (pid rent : Nat) (c0 c1 c2 c3 c4 c5 c6 c7 : AccountInfo)
        (rest : List AccountInfo) (ot : OfferType) (ota rta : Nat)
        (exp : Option Int) (b : Nat) (efs0 : List Effect) (t : TokenAccount),
      c0.is_signer = true →
      (fpa (offerSeeds c0.key c3.key c4.key b) pid).1 = c1.key →
      (fpa (offerSeeds c0.key c3.key c4.key b) pid).2 = b →
      alloc_offer_storage c0 c1 pid rent = Except.ok efs0 →
      c2.data = AcctData.tokenAcct t →
      t.owner ≠ c0.key →
      process_create_offer fpa pid rent
        (c0 :: c1 :: c2 :: c3 :: c4 :: c5 :: c6 :: c7 :: rest) ot ota rta exp b =
        OpOutcome.err (ProgramError.Custom SwapError.IncorrectOwner) efs0 []) ∧
    (∀ (fpa : FpaFn) (pid rent : Nat) (c0 c1 c2 c3 c4 c5 c6 c7 : AccountInfo)
        (rest : List AccountInfo) (ot : OfferType) (ota rta : Nat)
        (exp : Option Int) (b : Nat) (efs0 : List Effect) (t : TokenAccount),
      c0.is_signer = true →
      (fpa (offerSeeds c0.key c3.key c4.key b) pid).1 = c1.key →
      (fpa (offerSeeds c0.key c3.key c4.key b) pid).2 = b →
      alloc_offer_storage c0 c1 pid rent = Except.ok efs0 →
      c2.data = AcctData.tokenAcct t →
      t.owner = c0.key →
      t.mint ≠ c3.key →
      process_create_offer fpa pid rent
        (c0 :: c1 :: c2 :: c3 :: c4 :: c5 :: c6 :: c7 :: rest) ot ota rta exp b =
        OpOutcome.err (ProgramError.Custom SwapError.TokenMismatch) efs0 []) :=
  ⟨create_token_uninit, create_token_wrong_owner, create_token_wrong_mint⟩

/-- A deriver mapping every seed list to address 50 with canonical salt 4,
used by the C10 witness. -/
def fpaConst50b : FpaFn := fun _ _ => (50, 4)

/-- Witness for C10: a PublicBuy creation is rejected when the maker's
token-holding account is uninitialized, owned by someone else, or of the
wrong asset type. -/
theorem c10_witness :
    (process_create_offer fpaConst50b 7 100
      [ mkAccount 1 true true 10 0 AcctData.other,
        mkAccount 50 false true 0 7 AcctData.zeroed,
        mkAccount 52 false true 0 0 AcctData.other,
        mkAccount 2 false false 0 0 AcctData.other,
        mkAccount 3 false false 0 0 AcctData.other,
        mkAccount 901 false false 0 0 AcctData.other,
        mkAccount 902 false false 0 0 AcctData.other,
        mkAccount 903 false false 0 0 AcctData.other ]
      OfferType.PublicBuy 5 4 none 4 =
      OpOutcome.err ProgramError.UninitializedAccount [] []) ∧
    (process_create_offer fpaConst50b 7 100
      [ mkAccount 1 true true 10 0 AcctData.other,
        mkAccount 50 false true 0 7 AcctData.zeroed,
        mkAccount 52 false true 0 0
          (AcctData.tokenAcct { mint := 2, owner := 9, amount := 10 }),
        mkAccount 2 false false 0 0 AcctData.other,
        mkAccount 3 false false 0 0 AcctData.other,
        mkAccount 901 false false 0 0 AcctData.other,
        mkAccount 902 false false 0 0 AcctData.other,
        mkAccount 903 false false 0 0 AcctData.other ]
      OfferType.PublicBuy 5 4 none 4 =
      OpOutcome.err (ProgramError.Custom SwapError.IncorrectOwner) [] []) ∧
    (process_create_offer fpaConst50b 7 100
      [ mkAccount 1 true true 10 0 AcctData.other,
        mkAccount 50 false true 0 7 AcctData.zeroed,
        mkAccount 52 false true 0 0
          (AcctData.tokenAcct { mint := 5, owner := 1, amount := 10 }),
        mkAccount 2 false false 0 0 AcctData.other,
        mkAccount 3 false false 0 0 AcctData.other,
        mkAccount 901 false false 0 0 AcctData.other,
        mkAccount 902 false false 0 0 AcctData.other,
        mkAccount 903 false false 0 0 AcctData.other ]
      OfferType.PublicBuy 5 4 none 4 =
      OpOutcome.err (ProgramError.Custom SwapError.TokenMismatch) [] []) := by
  refine ⟨?_, ?_, ?_⟩
  · apply c10_create_requires_maker_token_account.1 fpaConst50b 7 100
    · rfl
    · rfl
    · rfl
    · rfl
    · exact fun t h => AcctData.noConfusion h
  · apply c10_create_requires_maker_token_account.2.1 fpaConst50b 7 100
    · rfl
    · rfl
    · rfl
    · rfl
    · rfl
    · decide
  · apply c10_create_requires_maker_token_account.2.2 fpaConst50b 7 100
    · rfl
    · rfl
    · rfl
    · rfl
    · rfl
    · rfl
    · decide

end Soffer
